import Mathlib

/-!
Formal model of the chat relay route of the Kimi-Clone web application
(the Next.js API route handling `POST /api/chat`): request construction
for the five provider adapters, dotted-path response extraction, and the
POST routing logic.

JSON values are modelled by an inductive `Json` type (numbers as
integers; no claim depends on fractional values).  JavaScript string
truthiness (the empty string is falsy) is modelled explicitly by
`jsTruthy`, `jsTruthyOpt` and `jsOrD`.
-/

/-- JSON value, as produced by parsing a request or response body. -/
inductive Json where
  | null
  | bool (b : Bool)
  | num (n : Int)
  | str (s : String)
  | arr (items : List Json)
  | obj (fields : List (String × Json))

/-- Role of a normalized chat message (the `role` field of `ApiChatMessage`). -/
inductive Role where
  | user
  | assistant
  | system
deriving DecidableEq

/-- Normalized chat message handed to the adapters (`ApiChatMessage` in the source). -/
structure ApiChatMessage where
  role : Role
  content : String

/-- Message shape received from the frontend: one `{ sender, text }` entry. -/
structure FrontendMessage where
  sender : String
  text : String

/-- Custom API configuration (`CustomApiConfigForBackend` in the source).
The source field `apiKeyPrefix` is named `apiKeyPrefixVal` here. -/
structure CustomApiConfigForBackend where
  id : String
  name : String
  endpoint : String
  apiKey : String
  apiKeyHeaderName : Option String := none
  apiKeyPrefixVal : Option String := none
  modelParamName : Option String := none
  messagesParamName : Option String := none
  responsePath : Option String := none

/-- JavaScript truthiness of a string: only the empty string is falsy. -/
def jsTruthy (s : String) : Bool := s != ""

/-- JavaScript truthiness of a possibly-absent string. -/
def jsTruthyOpt (o : Option String) : Bool :=
  match o with
  | some s => jsTruthy s
  | none => false

/-- JavaScript `a || b` for a possibly-absent string `a` and a string default. -/
def jsOrD (o : Option String) (d : String) : String :=
  match o with
  | some s => if s = "" then d else s
  | none => d

/-- Wire form of a role, as serialized into `{role, content}` entries. -/
def Role.wire : Role → String
  | Role.user => "user"
  | Role.assistant => "assistant"
  | Role.system => "system"

/-- One outbound HTTP request as assembled by an adapter (the method is
always POST in the source, so it is not recorded). -/
structure OutboundRequest where
  url : String
  headers : List (String × String)
  body : Json

/-- Ambient runtime environment available to the route handler: the wall
clock and a per-process invocation counter.  The source reads neither (no
`Date.now()` call and no module-level mutable state occur in the route),
so the adapter embeddings receive the environment and ignore it; the
determinism theorem states that independence. -/
structure RelayEnv where
  nowMillis : Nat
  callCounter : Nat

/-- Serialization `messages.map(m => ({role: m.role, content: m.content}))`. -/
def messagesJson (messages : List ApiChatMessage) : Json :=
  Json.arr (messages.map (fun m =>
    Json.obj [("role", Json.str (Role.wire m.role)), ("content", Json.str m.content)]))

/-- Request assembled by `callDeepSeekAPI` before dispatch. -/
def callDeepSeekAPI_request (_env : RelayEnv) (apiKey : String)
    (messages : List ApiChatMessage) (model : Option String) : OutboundRequest :=
  { url := "https://api.deepseek.com/chat/completions"
    headers := [("Content-Type", "application/json"), ("Authorization", "Bearer " ++ apiKey)]
    body := Json.obj [
      ("model", Json.str (jsOrD model "deepseek-chat")),
      ("messages", messagesJson messages)] }

/-- Request assembled by `callOpenAIAPI` before dispatch. -/
def callOpenAIAPI_request (_env : RelayEnv) (apiKey : String)
    (messages : List ApiChatMessage) (model : Option String) : OutboundRequest :=
  { url := "https://api.openai.com/v1/chat/completions"
    headers := [("Content-Type", "application/json"), ("Authorization", "Bearer " ++ apiKey)]
    body := Json.obj [
      ("model", Json.str (jsOrD model "gpt-3.5-turbo")),
      ("messages", messagesJson messages)] }

/-- Last-wins system prompt accumulation of `callAnthropicAPI`: the source
walks the message list once, overwriting a `systemPrompt` variable at each
system-role message; a left fold reproduces that single pass. -/
def anthropicSystemPrompt (messages : List ApiChatMessage) : String :=
  messages.foldl (fun acc m => if m.role = Role.system then m.content else acc) ""

/-- Non-system messages of `callAnthropicAPI`, re-rolled to user/assistant
(the same single pass also drops every system-role message). -/
def anthropicMessages (messages : List ApiChatMessage) : List Json :=
  (messages.filter (fun m => decide (m.role ≠ Role.system))).map (fun m =>
    Json.obj [("role", Json.str (if m.role = Role.assistant then "assistant" else "user")),
      ("content", Json.str m.content)])

/-- Request assembled by `callAnthropicAPI`: system messages are dropped
from the list and merged into the optional `system` body field, which is
appended only when the accumulated prompt is truthy (non-empty). -/
def callAnthropicAPI_request (_env : RelayEnv) (apiKey : String)
    (messages : List ApiChatMessage) (model : Option String) : OutboundRequest :=
  let systemPrompt := anthropicSystemPrompt messages
  { url := "https://api.anthropic.com/v1/messages"
    headers := [("Content-Type", "application/json"), ("x-api-key", apiKey),
      ("anthropic-version", "2023-06-01")]
    body := Json.obj ([
      ("model", Json.str (jsOrD model "claude-3-sonnet-20240229")),
      ("max_tokens", Json.num 1024),
      ("messages", Json.arr (anthropicMessages messages))] ++
      (if jsTruthy systemPrompt then [("system", Json.str systemPrompt)] else [])) }

/-- Contents of `callGeminiAPI`, with the role ternary of the source:
assistant to "model", otherwise system to "user", otherwise the role itself. -/
def geminiContents (messages : List ApiChatMessage) : List Json :=
  messages.map (fun m =>
    Json.obj [("role", Json.str (if m.role = Role.assistant then "model"
        else if m.role = Role.system then "user" else Role.wire m.role)),
      ("parts", Json.arr [Json.obj [("text", Json.str m.content)]])])

/-- Request assembled by `callGeminiAPI`: the key travels in the query
string of the templated URL and no auth header is set. -/
def callGeminiAPI_request (_env : RelayEnv) (apiKey : String)
    (messages : List ApiChatMessage) (model : Option String) : OutboundRequest :=
  let currentModel := jsOrD model "gemini-1.5-flash-latest"
  { url := "https://generativelanguage.googleapis.com/v1beta/models/" ++ currentModel ++
      ":generateContent?key=" ++ apiKey
    headers := [("Content-Type", "application/json")]
    body := Json.obj [("contents", Json.arr (geminiContents messages))] }

/-- Headers assembled by `callCustomAPI`: a truthy (present and non-empty)
`apiKeyHeaderName` together with a truthy `apiKey` names the auth header;
otherwise a truthy `apiKey` goes under Authorization with a Bearer marker;
otherwise no auth header is written. -/
def customHeaders (cfg : CustomApiConfigForBackend) : List (String × String) :=
  [("Content-Type", "application/json")] ++
  (if jsTruthyOpt cfg.apiKeyHeaderName && jsTruthy cfg.apiKey then
    [((cfg.apiKeyHeaderName).getD "", jsOrD cfg.apiKeyPrefixVal "" ++ cfg.apiKey)]
  else if jsTruthy cfg.apiKey then
    [("Authorization", "Bearer " ++ cfg.apiKey)]
  else [])

/-- Body assembled by `callCustomAPI`: the message list under the
configured (or default) parameter name; the model value only when a truthy
model was supplied, under the configured (or default) parameter name. -/
def customBody (cfg : CustomApiConfigForBackend) (messages : List ApiChatMessage)
    (model : Option String) : Json :=
  Json.obj ([(jsOrD cfg.messagesParamName "messages", messagesJson messages)] ++
    (if jsTruthyOpt cfg.modelParamName && jsTruthyOpt model then
      [((cfg.modelParamName).getD "", Json.str (model.getD ""))]
    else if jsTruthyOpt model then
      [("model", Json.str (model.getD ""))]
    else []))

/-- Request assembled by `callCustomAPI` before dispatch. -/
def callCustomAPI_request (_env : RelayEnv) (cfg : CustomApiConfigForBackend)
    (messages : List ApiChatMessage) (model : Option String) : OutboundRequest :=
  { url := cfg.endpoint
    headers := customHeaders cfg
    body := customBody cfg messages model }

/-- Decimal value of one digit character, or nothing. -/
def digitVal? (c : Char) : Option Nat :=
  if c.isDigit then some (c.toNat - 48) else none

/-- Accumulating decimal parse of a digit run; any non-digit aborts. -/
def decimalNatAux : List Char → Nat → Option Nat
  | [], acc => some acc
  | c :: cs, acc =>
      match digitVal? c with
      | some d => decimalNatAux cs (acc * 10 + d)
      | none => none

/-- Decimal numeral value of a non-empty all-digit character list. -/
def decimalNat? (cs : List Char) : Option Nat :=
  match cs with
  | [] => none
  | _ => decimalNatAux cs 0

/-- Object-key or array-index lookup on one JSON value, modelling the
JavaScript test `part in acc` followed by the access `acc[part]` over JSON
data: objects own their keys; a JSON array owns exactly the canonical
decimal indices below its length (a numeral segment whose canonical
rendering is the segment itself) together with the numeric `length`
property.  Inherited prototype properties of JSON data are all functions,
which can never traverse further to or be a string, so they are not
modelled. -/
def lookupSegment (v : Json) (part : String) : Option Json :=
  match v with
  | Json.obj fields => fields.lookup part
  | Json.arr items =>
      if part = "length" then some (Json.num (items.length : Int))
      else
        match decimalNat? part.toList with
        | some i => if Nat.repr i = part then items[i]? else none
        | none => none
  | _ => none

/-- One step of the `reduce` inside `getNestedValue`: an accumulator that
is already missing stays missing, otherwise one segment is looked up. -/
def jsonStep (acc : Option Json) (part : String) : Option Json :=
  match acc with
  | some v => lookupSegment v part
  | none => none

/-- Dot-splitting of a path, modelling `path.split(".")` (a plain one-character
separator, no pattern semantics) over the character list of the path. -/
def splitPath (path : String) : List String :=
  (path.toList.splitOn '.').map (fun cs => String.mk cs)

/-- Traversability test of `getNestedValue` on entry: the JavaScript guard
admits exactly objects and arrays (null is excluded explicitly). -/
def Json.isObjectLike : Json → Bool
  | Json.obj _ => true
  | Json.arr _ => true
  | _ => false

/-- Final step of `getNestedValue`: only a string may be returned, any
other traversal outcome becomes undefined. -/
def stringOnly (v : Option Json) : Option String :=
  match v with
  | some (Json.str s) => some s
  | _ => none

/-- The dotted-path extractor `getNestedValue` of the source: an empty
path and a non-traversable root are rejected, the segments are folded over
the key lookup, and the end value is kept only when it is a string. -/
def getNestedValue (obj : Json) (path : String) : Option String :=
  if path = "" then none
  else if ! Json.isObjectLike obj then none
  else stringOnly ((splitPath path).foldl jsonStep (some obj))

/-- Property access usable by the fixed extraction shapes: key lookup on
an object; on any non-object JSON value the accessed property is undefined
(the shape keys are never numeric, so array index access cannot arise). -/
def jsonLookup (v : Json) (key : String) : Option Json :=
  match v with
  | Json.obj fields => fields.lookup key
  | _ => none

/-- Extraction rule for the anthropic shape: `content[0].text` must be a
string inside a non-empty `content` array. -/
def extractAnthropicShape (j : Json) : Option String :=
  match jsonLookup j "content" with
  | some (Json.arr (firstContentItem :: _)) =>
      (match jsonLookup firstContentItem "text" with
        | some (Json.str s) => some s
        | _ => none)
  | _ => none

/-- Extraction rule for the openai and deepseek shape:
`choices[0].message.content` with `choices` a non-empty array.  The source
also tests that `choices[0]` and its `message` are truthy objects; a value
failing those tests cannot own a string `content` property, so the
observable outcome is unchanged. -/
def extractOpenAIShape (j : Json) : Option String :=
  match jsonLookup j "choices" with
  | some (Json.arr (firstChoice :: _)) =>
      (match jsonLookup firstChoice "message" with
        | some message =>
            (match jsonLookup message "content" with
              | some (Json.str s) => some s
              | _ => none)
        | none => none)
  | _ => none

/-- Extraction rule for the gemini shape:
`candidates[0].content.parts[0].text` with container checks at each step. -/
def extractGeminiShape (j : Json) : Option String :=
  match jsonLookup j "candidates" with
  | some (Json.arr (firstCandidate :: _)) =>
      (match jsonLookup firstCandidate "content" with
        | some content =>
            (match jsonLookup content "parts" with
              | some (Json.arr (firstPart :: _)) =>
                  (match jsonLookup firstPart "text" with
                    | some (Json.str s) => some s
                    | _ => none)
              | _ => none)
        | none => none)
  | _ => none

/-- Sentinel placeholder installed into `aiMessageText` before extraction. -/
def defaultParseError : String := "Error: Could not parse AI response."

/-- Sentinel installed when a configured response path fails to yield a string. -/
def pathMismatchError : String := "Error: Custom API response format mismatch."

/-- Configured response path, when a custom config is present. -/
def customPathOf (cfg : Option CustomApiConfigForBackend) : Option String :=
  cfg.bind (fun c => c.responsePath)

/-- Custom-provider fallback branch of the extraction chain: the openai
shape is attempted when `choices` is a non-empty array; only otherwise is
the anthropic shape attempted, when `content` is a non-empty array. -/
def customFallbackAttempt (j : Json) : Option String :=
  match jsonLookup j "choices" with
  | some (Json.arr (_ :: _)) => extractOpenAIShape j
  | _ =>
      match jsonLookup j "content" with
      | some (Json.arr (_ :: _)) => extractAnthropicShape j
      | _ => none

/-- Outcome of the structural extraction attempt made by the branch of the
`aiMessageText` chain that applies to the given provider and config;
`none` when that branch does not match the response shape. -/
def extractionAttempt (provider : String) (isCustom : Bool)
    (cfg : Option CustomApiConfigForBackend) (j : Json) : Option String :=
  if isCustom && jsTruthyOpt (customPathOf cfg) then
    getNestedValue j ((customPathOf cfg).getD "")
  else if provider = "anthropic" then
    extractAnthropicShape j
  else if provider = "openai" || provider = "deepseek" then
    extractOpenAIShape j
  else if provider = "gemini" then
    extractGeminiShape j
  else if isCustom then
    customFallbackAttempt j
  else none

/-- JavaScript pattern `let x = d; if (matched) x = v;` as an option default. -/
def orElseText (o : Option String) (d : String) : String :=
  match o with
  | some s => s
  | none => d

/-- The `aiMessageText` computation of the route: one branch of the chain
is selected by provider and config, and a failed match leaves a sentinel
(the path mismatch sentinel in the configured-path branch, the default
parse sentinel everywhere else). -/
def extractAiText (provider : String) (isCustom : Bool)
    (cfg : Option CustomApiConfigForBackend) (j : Json) : String :=
  if isCustom && jsTruthyOpt (customPathOf cfg) then
    orElseText (getNestedValue j ((customPathOf cfg).getD "")) pathMismatchError
  else if provider = "anthropic" then
    orElseText (extractAnthropicShape j) defaultParseError
  else if provider = "openai" || provider = "deepseek" then
    orElseText (extractOpenAIShape j) defaultParseError
  else if provider = "gemini" then
    orElseText (extractGeminiShape j) defaultParseError
  else if isCustom then
    orElseText (customFallbackAttempt j) defaultParseError
  else defaultParseError

/-- Request body of the relay POST; optionality mirrors JSON field presence. -/
structure RequestBody where
  provider : Option String
  apiKey : Option String
  messages : Option (List FrontendMessage)
  model : Option String
  customApiConfig : Option CustomApiConfigForBackend

/-- Routing decision taken after validation. -/
inductive Route where
  | custom (cfg : CustomApiConfigForBackend)
  | builtin (provider : String)
  | noKey

/-- Route selection of the handler, from the test
`customApiConfig && customApiConfig.id === provider`: the custom adapter
exactly when a config is present and its id matches the provider;
otherwise the built-in provider switch when an apiKey is truthily
present; otherwise the configuration rejection. -/
def routeOf (provider : String) (apiKey : Option String)
    (cfg : Option CustomApiConfigForBackend) : Route :=
  match cfg with
  | some c =>
      if c.id == provider then Route.custom c
      else if jsTruthyOpt apiKey then Route.builtin provider else Route.noKey
  | none => if jsTruthyOpt apiKey then Route.builtin provider else Route.noKey

/-- Error envelope `{ error: message }`. -/
def errJson (message : String) : Json := Json.obj [("error", Json.str message)]

/-- Result of one relay invocation: HTTP status, JSON body, and the
outbound provider requests attempted during the invocation. -/
structure RelayResult where
  status : Nat
  body : Json
  outbound : List OutboundRequest

/-- Success tail of the route: extraction never fails the call; the raw
response is attached untouched next to the extracted (or sentinel) text. -/
def relaySuccess (provider : String) (isCustom : Bool)
    (cfg : Option CustomApiConfigForBackend) (responseData : Json)
    (outbound : List OutboundRequest) : RelayResult :=
  { status := 200
    body := Json.obj [("aiResponse", Json.str (extractAiText provider isCustom cfg responseData)),
      ("rawResponse", responseData)]
    outbound := outbound }

/-- Sender-to-role normalization of the handler: the sender "user" maps to
the user role and every other sender maps to the assistant role. -/
def toApiMessages (messages : List FrontendMessage) : List ApiChatMessage :=
  messages.map (fun m =>
    { role := if m.sender = "user" then Role.user else Role.assistant, content := m.text })

/-- The POST handler, modelled for an invocation whose outbound call (when
one is made) succeeds and yields the JSON body `providerResponse`. -/
def relayPOST (env : RelayEnv) (req : RequestBody) (providerResponse : Json) : RelayResult :=
  if ! jsTruthyOpt req.provider || (req.messages).isNone then
    { status := 400, body := errJson "Missing provider or messages", outbound := [] }
  else if (req.customApiConfig).isNone && ! jsTruthyOpt req.apiKey then
    { status := 400, body := errJson "Missing apiKey", outbound := [] }
  else
    let provider := (req.provider).getD ""
    let apiMessages := toApiMessages ((req.messages).getD [])
    match routeOf provider req.apiKey req.customApiConfig with
    | Route.custom cfg =>
        relaySuccess provider true (some cfg) providerResponse
          [callCustomAPI_request env cfg apiMessages req.model]
    | Route.builtin p =>
        let key := (req.apiKey).getD ""
        if p = "deepseek" then
          relaySuccess provider false req.customApiConfig providerResponse
            [callDeepSeekAPI_request env key apiMessages req.model]
        else if p = "openai" then
          relaySuccess provider false req.customApiConfig providerResponse
            [callOpenAIAPI_request env key apiMessages req.model]
        else if p = "anthropic" then
          relaySuccess provider false req.customApiConfig providerResponse
            [callAnthropicAPI_request env key apiMessages req.model]
        else if p = "gemini" then
          relaySuccess provider false req.customApiConfig providerResponse
            [callGeminiAPI_request env key apiMessages req.model]
        else
          { status := 400, body := errJson "Unsupported or misconfigured AI provider",
            outbound := [] }
    | Route.noKey =>
        { status := 400, body := errJson "Provider configuration error", outbound := [] }

/-- Recursive descent stated from the claim wording: abort with undefined
at the first missing or non-traversable segment, else keep walking. -/
def walkPath : Json → List String → Option Json
  | v, [] => some v
  | v, part :: rest =>
      match lookupSegment v part with
      | some next => walkPath next rest
      | none => none

/-- Content of the last system message, stated from the claim wording of
the last-wins merge (empty when no system message occurs). -/
def lastSystemContent (messages : List ApiChatMessage) : String :=
  ((((messages.filter (fun m => decide (m.role = Role.system))).map
    (fun m => m.content)).getLast?).getD "")

/-- Role table stated from the claim wording: assistant to model, system
and user both to user. -/
def geminiRoleSpec : Role → String
  | Role.assistant => "model"
  | Role.system => "user"
  | Role.user => "user"

/-! Helper lemmas. -/

/-- A missing accumulator stays missing through the fold. -/
theorem foldl_jsonStep_none (segs : List String) : segs.foldl jsonStep none = none := by
  induction segs with
  | nil => rfl
  | cons s rest ih => simpa [jsonStep] using ih

/-- The fold of the source agrees with the recursive descent of the claim. -/
theorem foldl_jsonStep_eq_walkPath (segs : List String) (v : Json) :
    segs.foldl jsonStep (some v) = walkPath v segs := by
  induction segs generalizing v with
  | nil => rfl
  | cons s rest ih =>
      rw [List.foldl_cons]
      cases h : lookupSegment v s with
      | some next => simpa [walkPath, jsonStep, h] using ih next
      | none => simp [walkPath, jsonStep, h, foldl_jsonStep_none]

/-- Splitting a path on dots yields at least one segment. -/
theorem splitPath_ne_nil (path : String) : splitPath path ≠ [] := by
  unfold splitPath
  intro h
  rw [List.map_eq_nil_iff] at h
  exact List.splitOnP_ne_nil _ path.toList h

/-- Chained defaulting: the text is the attempted extraction when it
matched, else the sentinel of the branch that was taken. -/
theorem extractAiText_eq_attempt (provider : String) (isCustom : Bool)
    (cfg : Option CustomApiConfigForBackend) (j : Json) :
    extractAiText provider isCustom cfg j
      = orElseText (extractionAttempt provider isCustom cfg j)
        (if isCustom && jsTruthyOpt (customPathOf cfg) then pathMismatchError
         else defaultParseError) := by
  unfold extractAiText extractionAttempt
  split_ifs <;> simp [orElseText]

/-- The sample environment used by the concrete witnesses. -/
def envZero : RelayEnv := ⟨0, 0⟩

/-- Claim C9: for every provider, building the outbound request is a
deterministic function of the inputs alone; the ambient environment (wall
clock, invocation counter) never influences the request, so two builds
from identical inputs are structurally identical and no timestamp can
occur in the body. -/
theorem request_building_deterministic (e₁ e₂ : RelayEnv) (apiKey : String)
    (cfg : CustomApiConfigForBackend) (messages : List ApiChatMessage)
    (model : Option String) (req : RequestBody) (stub : Json) :
    callDeepSeekAPI_request e₁ apiKey messages model
      = callDeepSeekAPI_request e₂ apiKey messages model
  ∧ callOpenAIAPI_request e₁ apiKey messages model
      = callOpenAIAPI_request e₂ apiKey messages model
  ∧ callAnthropicAPI_request e₁ apiKey messages model
      = callAnthropicAPI_request e₂ apiKey messages model
  ∧ callGeminiAPI_request e₁ apiKey messages model
      = callGeminiAPI_request e₂ apiKey messages model
  ∧ callCustomAPI_request e₁ cfg messages model
      = callCustomAPI_request e₂ cfg messages model
  ∧ relayPOST e₁ req stub = relayPOST e₂ req stub :=
  ⟨rfl, rfl, rfl, rfl, rfl, rfl⟩

/-- Custom config with the header name set to the empty string. -/
def cfgEmptyHeaderName : CustomApiConfigForBackend :=
  { id := "c2", name := "n", endpoint := "https://example.test/chat", apiKey := "k",
    apiKeyHeaderName := some "" }

/-- Claim C2, counterexample: with `apiKeyHeaderName` set to the empty
string and a non-empty key, the adapter does NOT write the key under the
empty header name; it writes the default Authorization Bearer header. -/
theorem custom_empty_header_name_counterexample :
    (callCustomAPI_request envZero cfgEmptyHeaderName [] none).headers
      = [("Content-Type", "application/json"), ("Authorization", "Bearer k")]
  ∧ ((callCustomAPI_request envZero cfgEmptyHeaderName [] none).headers).lookup "" = none :=
  ⟨rfl, rfl⟩

/-- Claim C2, amended: an empty `apiKeyHeaderName` is falsy, so the
adapter falls back to the default `Authorization: Bearer` header exactly
as when the field is unset. -/
theorem custom_empty_header_name_uses_default (env : RelayEnv)
    (cfg : CustomApiConfigForBackend) (messages : List ApiChatMessage)
    (model : Option String) (hname : cfg.apiKeyHeaderName = some "")
    (hkey : cfg.apiKey ≠ "") :
    (callCustomAPI_request env cfg messages model).headers
      = [("Content-Type", "application/json"), ("Authorization", "Bearer " ++ cfg.apiKey)] := by
  unfold callCustomAPI_request customHeaders
  rw [hname]
  simp [jsTruthyOpt, jsTruthy, hkey]

/-- Witness for the amended claim C2 at a concrete configuration. -/
theorem custom_empty_header_name_uses_default_witness :
    cfgEmptyHeaderName.apiKeyHeaderName = some "" ∧ cfgEmptyHeaderName.apiKey ≠ ""
  ∧ (callCustomAPI_request envZero cfgEmptyHeaderName [] none).headers
      = [("Content-Type", "application/json"), ("Authorization", "Bearer " ++ cfgEmptyHeaderName.apiKey)] :=
  ⟨rfl, by decide,
    custom_empty_header_name_uses_default envZero cfgEmptyHeaderName [] none rfl (by decide)⟩

/-- Custom config whose configured response path cannot resolve against
an openai-shaped response. -/
def cfgPathC1 : CustomApiConfigForBackend :=
  { id := "c1", name := "c", endpoint := "https://example.test/v1", apiKey := "k",
    responsePath := some "data.text" }

/-- An openai-shaped response body. -/
def openaiShapedStub : Json :=
  Json.obj [("choices", Json.arr [Json.obj [("message", Json.obj [("content", Json.str "hello")])]])]

/-- Claim C1, code behavior at the failing input: the configured path does
not resolve, the openai-shape rule would match (yielding "hello"), yet the
extraction chain reports the mismatch sentinel without falling back — the
fallback branch is unreachable when a truthy responsePath is configured,
contradicting the fallback comment in the source. -/
theorem failed_path_no_fallback_code_behavior :
    getNestedValue openaiShapedStub "data.text" = none
  ∧ extractOpenAIShape openaiShapedStub = some "hello"
  ∧ extractAiText "c1" true (some cfgPathC1) openaiShapedStub = pathMismatchError :=
  ⟨rfl, rfl, rfl⟩

/-- Claim C6: provider and messages present but neither apiKey nor a
custom config: the relay answers 400 with an error envelope and no
outbound request is attempted. -/
theorem missing_credentials_rejected_no_call (env : RelayEnv) (provider : String)
    (messages : List FrontendMessage) (model : Option String) (stub : Json) :
    (relayPOST env ⟨some provider, none, some messages, model, none⟩ stub).status = 400
  ∧ (∃ m, (relayPOST env ⟨some provider, none, some messages, model, none⟩ stub).body = errJson m)
  ∧ (relayPOST env ⟨some provider, none, some messages, model, none⟩ stub).outbound = [] := by
  have hres : relayPOST env ⟨some provider, none, some messages, model, none⟩ stub
      = { status := 400,
          body := errJson (if provider = "" then "Missing provider or messages" else "Missing apiKey"),
          outbound := [] } := by
    by_cases h : provider = "" <;> simp [relayPOST, jsTruthyOpt, jsTruthy, h]
  rw [hres]
  exact ⟨rfl, ⟨_, rfl⟩, rfl⟩

/-- Defaulted last element commutes with a cons: the default is displaced. -/
theorem getLast?_cons_getD (l : List String) :
    ∀ x d : String, ((x :: l).getLast?).getD d = (l.getLast?).getD x := by
  induction l with
  | nil => intro x d; rfl
  | cons y ys ih =>
      intro x d
      rw [List.getLast?_cons_cons, ih y d, ih y x]

/-- The single-pass overwrite accumulation of the source equals the
content of the last system message, for any starting accumulator. -/
theorem anthropicSystemPrompt_lastWins (messages : List ApiChatMessage) :
    ∀ acc : String,
      messages.foldl (fun acc m => if m.role = Role.system then m.content else acc) acc
        = ((((messages.filter (fun m => decide (m.role = Role.system))).map
            (fun m => m.content)).getLast?).getD acc) := by
  induction messages with
  | nil => intro acc; rfl
  | cons m rest ih =>
      intro acc
      by_cases h : m.role = Role.system
      · have hf : (m :: rest).filter (fun m => decide (m.role = Role.system))
            = m :: rest.filter (fun m => decide (m.role = Role.system)) := by
          simp [List.filter_cons, h]
        rw [List.foldl_cons, if_pos h, ih m.content, hf, List.map_cons,
          getLast?_cons_getD]
      · have hf : (m :: rest).filter (fun m => decide (m.role = Role.system))
            = rest.filter (fun m => decide (m.role = Role.system)) := by
          simp [List.filter_cons, h]
        rw [List.foldl_cons, if_neg h, ih acc, hf]

/-- Claim C3: the anthropic adapter removes every system-role message from
the outbound array (whose entries carry only the user or assistant role,
in original relative order), merges them last-wins into a single system
string, and includes the `system` body field exactly when that string is
non-empty. -/
theorem anthropic_system_merge (env : RelayEnv) (apiKey : String)
    (messages : List ApiChatMessage) (model : Option String) :
    jsonLookup (callAnthropicAPI_request env apiKey messages model).body "messages"
      = some (Json.arr ((messages.filter (fun m => decide (m.role ≠ Role.system))).map (fun m =>
          Json.obj [("role", Json.str (if m.role = Role.assistant then "assistant" else "user")),
            ("content", Json.str m.content)])))
  ∧ (∀ e ∈ anthropicMessages messages, jsonLookup e "role" ≠ some (Json.str "system"))
  ∧ jsonLookup (callAnthropicAPI_request env apiKey messages model).body "system"
      = (if lastSystemContent messages = "" then none
         else some (Json.str (lastSystemContent messages))) := by
  have hlast : anthropicSystemPrompt messages = lastSystemContent messages :=
    anthropicSystemPrompt_lastWins messages ""
  refine ⟨?_, ?_, ?_⟩
  · simp [callAnthropicAPI_request, jsonLookup, List.lookup, anthropicMessages]
  · intro e he
    rcases List.mem_map.mp he with ⟨m, _, rfl⟩
    by_cases hr : m.role = Role.assistant <;>
      simp [jsonLookup, List.lookup, hr]
  · rw [callAnthropicAPI_request]
    simp only [jsonLookup, hlast]
    by_cases h : lastSystemContent messages = "" <;>
      simp [List.lookup, jsTruthy, h]

/-- Claim C4: a supplied custom config is routed to the custom adapter
exactly when its id equals the provider; with a mismatched id and a truthy
apiKey the request enters the built-in provider switch; an absent config
never routes to the custom adapter. -/
theorem custom_routing_iff (provider : String) (apiKey : Option String)
    (c : CustomApiConfigForBackend) :
    (routeOf provider apiKey (some c) = Route.custom c ↔ c.id = provider)
  ∧ (∀ c₂, routeOf provider apiKey none ≠ Route.custom c₂)
  ∧ (c.id ≠ provider → jsTruthyOpt apiKey = true →
      routeOf provider apiKey (some c) = Route.builtin provider) := by
  refine ⟨⟨?_, ?_⟩, ?_, ?_⟩
  · intro h
    by_cases hid : c.id = provider
    · exact hid
    · simp only [routeOf, beq_iff_eq, if_neg hid] at h
      by_cases hk : jsTruthyOpt apiKey = true <;> simp [hk] at h
  · intro h
    simp [routeOf, h]
  · intro c₂ h
    simp only [routeOf] at h
    by_cases hk : jsTruthyOpt apiKey = true <;> simp [hk] at h
  · intro hid hk
    simp [routeOf, beq_iff_eq, hid, hk]

/-- Sample custom config for the routing witness. -/
def cfgRouting : CustomApiConfigForBackend :=
  { id := "c1", name := "n", endpoint := "https://example.test", apiKey := "k" }

/-- Witness for claim C4 at concrete inputs: a mismatched id with an
apiKey present routes to the built-in switch. -/
theorem custom_routing_iff_witness :
    routeOf "other" (some "k") (some cfgRouting) = Route.builtin "other" :=
  (custom_routing_iff "other" (some "k") cfgRouting).2.2 (by decide) rfl

/-- Claim C5: when no extraction rule matches the response shape, the
relay still answers 200; the body carries the untouched raw response and
the extracted text is one of the two sentinel failure strings. -/
theorem extraction_failure_nonfatal (provider : String) (isCustom : Bool)
    (cfg : Option CustomApiConfigForBackend) (responseData : Json)
    (outbound : List OutboundRequest)
    (h : extractionAttempt provider isCustom cfg responseData = none) :
    (relaySuccess provider isCustom cfg responseData outbound).status = 200
  ∧ (relaySuccess provider isCustom cfg responseData outbound).body
      = Json.obj [("aiResponse", Json.str (extractAiText provider isCustom cfg responseData)),
          ("rawResponse", responseData)]
  ∧ (extractAiText provider isCustom cfg responseData = defaultParseError
      ∨ extractAiText provider isCustom cfg responseData = pathMismatchError) := by
  refine ⟨rfl, rfl, ?_⟩
  rw [extractAiText_eq_attempt, h]
  by_cases hc : (isCustom && jsTruthyOpt (customPathOf cfg)) = true
  · right; simp [orElseText, hc]
  · left; simp [orElseText, hc]

/-- Witness for claim C5 at a concrete non-matching response. -/
theorem extraction_failure_nonfatal_witness :
    extractionAttempt "openai" false none Json.null = none
  ∧ ((relaySuccess "openai" false none Json.null []).status = 200
      ∧ (relaySuccess "openai" false none Json.null []).body
          = Json.obj [("aiResponse", Json.str (extractAiText "openai" false none Json.null)),
              ("rawResponse", Json.null)]
      ∧ (extractAiText "openai" false none Json.null = defaultParseError
          ∨ extractAiText "openai" false none Json.null = pathMismatchError)) :=
  ⟨rfl, extraction_failure_nonfatal "openai" false none Json.null [] rfl⟩

/-- The gemini scenario request of the claim. -/
def reqGemini : RequestBody :=
  ⟨some "gemini", some "k", some [⟨"user", "2+2?"⟩], none, none⟩

/-- The stubbed gemini endpoint response of the claim. -/
def stubGemini : Json :=
  Json.obj [("candidates", Json.arr [Json.obj [("content",
    Json.obj [("parts", Json.arr [Json.obj [("text", Json.str "4")]])])]])]

/-- Claim C7: the gemini adapter maps assistant to model and both system
and user to user in the contents array, and the stubbed scenario yields
aiResponse "4" alongside the raw response. -/
theorem gemini_role_mapping_and_scenario :
    (∀ messages : List ApiChatMessage,
      geminiContents messages = messages.map (fun m =>
        Json.obj [("role", Json.str (geminiRoleSpec m.role)),
          ("parts", Json.arr [Json.obj [("text", Json.str m.content)]])]))
  ∧ relayPOST envZero reqGemini stubGemini
      = { status := 200,
          body := Json.obj [("aiResponse", Json.str "4"), ("rawResponse", stubGemini)],
          outbound := [callGeminiAPI_request envZero "k" [⟨Role.user, "2+2?"⟩] none] } := by
  constructor
  · have hrole : ∀ r : Role,
        (if r = Role.assistant then "model"
         else if r = Role.system then "user" else Role.wire r) = geminiRoleSpec r := by
      intro r; cases r <;> rfl
    intro messages
    unfold geminiContents
    simp only [hrole]
  · rfl

/-- Claim C8: the dotted-path traversal walks the dot-separated segments
as plain keys, aborting with undefined at the first missing or
non-traversable segment and yielding a string only (never a coerced
value); a canonical numeric segment acts as an ordinary array-index key. -/
theorem dotted_path_traversal_spec (obj : Json) (path : String) (hpath : path ≠ "") :
    getNestedValue obj path = stringOnly (walkPath obj (splitPath path))
  ∧ (∀ (items : List Json) (part : String) (i : Nat),
      decimalNat? part.toList = some i → Nat.repr i = part →
      lookupSegment (Json.arr items) part = items[i]?) := by
  constructor
  · unfold getNestedValue
    rw [if_neg hpath]
    by_cases hobj : Json.isObjectLike obj = true
    · simp [hobj, foldl_jsonStep_eq_walkPath]
    · simp only [hobj, Bool.not_false, if_true, Bool.false_eq_true, Bool.not_eq_true]
      cases hsg : splitPath path with
      | nil => exact absurd hsg (splitPath_ne_nil path)
      | cons s rest =>
          have hseg : lookupSegment obj s = none := by
            cases obj <;> simp_all [lookupSegment, Json.isObjectLike]
          simp [walkPath, hseg, stringOnly]
  · intro items part i h1 h2
    subst h2
    have hlen : ¬ (Nat.repr i = "length") := by
      intro he
      rw [he, show decimalNat? "length".toList = none from rfl] at h1
      exact Option.noConfusion h1
    have h₁ : decimalNat? (Nat.repr i).data = some i := h1
    simp [lookupSegment, hlen, h₁]

/-- The JSON body of the dotted-path example. -/
def pathSample : Json :=
  Json.obj [("data", Json.arr [Json.obj [("text", Json.str "ok")]])]

/-- Witness for claim C8 at the concrete example path. -/
theorem dotted_path_traversal_spec_witness :
    getNestedValue pathSample "data.0.text"
      = stringOnly (walkPath pathSample (splitPath "data.0.text"))
  ∧ getNestedValue pathSample "data.0.text" = some "ok" :=
  ⟨(dotted_path_traversal_spec pathSample "data.0.text" (by decide)).1, rfl⟩

/-- Claim C10: a provider string that is none of the four built-in keys
and does not match the id of a supplied config, with a non-empty apiKey
and well-formed inputs, is answered 400 with the unsupported-provider
message and no outbound call. -/
theorem unsupported_provider_rejected_no_call (env : RelayEnv)
    (provider apiKey : String) (messages : List FrontendMessage)
    (model : Option String) (cfg : Option CustomApiConfigForBackend) (stub : Json)
    (hprov : provider ≠ "") (hkey : apiKey ≠ "")
    (hd : provider ≠ "deepseek") (ho : provider ≠ "openai")
    (ha : provider ≠ "anthropic") (hg : provider ≠ "gemini")
    (hcfg : ∀ c, cfg = some c → c.id ≠ provider) :
    relayPOST env ⟨some provider, some apiKey, some messages, model, cfg⟩ stub
      = { status := 400, body := errJson "Unsupported or misconfigured AI provider",
          outbound := [] } := by
  cases cfg with
  | none =>
      simp [relayPOST, routeOf, jsTruthyOpt, jsTruthy, hprov, hkey, hd, ho, ha, hg]
  | some c =>
      have hid : c.id ≠ provider := hcfg c rfl
      simp [relayPOST, routeOf, jsTruthyOpt, jsTruthy, beq_iff_eq,
        hprov, hkey, hd, ho, ha, hg, hid]

/-- Witness for claim C10 at the reserved provider keys replicate and
openrouter. -/
theorem unsupported_provider_rejected_no_call_witness :
    relayPOST envZero ⟨some "replicate", some "k", some [], none, none⟩ Json.null
      = { status := 400, body := errJson "Unsupported or misconfigured AI provider",
          outbound := [] }
  ∧ relayPOST envZero ⟨some "openrouter", some "k", some [], none, none⟩ Json.null
      = { status := 400, body := errJson "Unsupported or misconfigured AI provider",
          outbound := [] } :=
  ⟨unsupported_provider_rejected_no_call envZero "replicate" "k" [] none none Json.null
      (by decide) (by decide) (by decide) (by decide) (by decide) (by decide)
      (fun c hc => Option.noConfusion hc),
    unsupported_provider_rejected_no_call envZero "openrouter" "k" [] none none Json.null
      (by decide) (by decide) (by decide) (by decide) (by decide) (by decide)
      (fun c hc => Option.noConfusion hc)⟩
